import Mathlib

/-!
Shallow embedding of the MedXpert health-assistant core (server.py and the
small data modules it imports).  Python strings are modelled as Lean
`String`s (lists of unicode scalar characters); Python dicts are modelled
as association lists preserving insertion order; `None` and fallible
lookups become `Option`.  ASCII case mapping models Python `str.lower` /
`str.upper` on the alphabets that actually occur in the data.
-/

namespace Medxai

/-! ### String helpers (models of Python string operations) -/

/-- Model of `text.lower()` (ASCII case mapping; non-ASCII unchanged). -/
def lowerS (s : String) : String := ⟨s.data.map Char.toLower⟩

/-- Model of `str.strip()`: drop whitespace from both ends. -/
def stripS (s : String) : String :=
  ⟨((s.data.dropWhile Char.isWhitespace).reverse.dropWhile Char.isWhitespace).reverse⟩

/-- `isPreL pat l` is true when `pat` is a prefix of `l` (model of `str.startswith`). -/
def isPreL : List Char → List Char → Bool
  | [], _ => true
  | _ :: _, [] => false
  | a :: as, b :: bs => a == b && isPreL as bs

/-- `subL pat l` is true when `pat` occurs as a contiguous substring of `l`. -/
def subL (pat : List Char) : List Char → Bool
  | [] => pat.isEmpty
  | c :: rest => isPreL pat (c :: rest) || subL pat rest

/-- Model of Python `pat in s` (substring containment). -/
def hasSub (s pat : String) : Bool := subL pat.data s.data

/-- Model of Python `s.startswith(pat)`. -/
def isPre (pat s : String) : Bool := isPreL pat.data s.data

/-- Model of single-character `str.replace(a, b)`. -/
def replaceCh (s : String) (a b : Char) : String :=
  ⟨s.data.map (fun c => if c == a then b else c)⟩

/-- Helper for `str.title()`: the boolean records whether the previous
character was alphabetic. -/
def titleChars : Bool → List Char → List Char
  | _, [] => []
  | prev, c :: rest =>
    if c.isAlpha then
      (if prev then c.toLower else c.toUpper) :: titleChars true rest
    else
      c :: titleChars false rest

/-- Model of Python `str.title()`. -/
def titleS (s : String) : String := ⟨titleChars false s.data⟩

/-- Model of Python `str.capitalize()`. -/
def capitalizeS (s : String) : String :=
  match s.data with
  | [] => ""
  | c :: rest => ⟨c.toUpper :: rest.map Char.toLower⟩

/-- Model of Python `sep.join(parts)`. -/
def joinWith (sep : String) : List String → String
  | [] => ""
  | [s] => s
  | s :: rest => s ++ sep ++ joinWith sep rest

/-! ### Knowledge-base data model (`faq.json` schema) -/

/-- A category's content in a language block: a single string or a list of
strings (the two shapes `search_faq` and `build_disease_index` handle). -/
inductive Content where
  | str : String → Content
  | items : List String → Content
deriving DecidableEq

/-- A language block of a disease: the four categories, each optional. -/
structure LangBlock where
  what : Option Content
  symptoms : Option Content
  prevention : Option Content
  remedies : Option Content
deriving DecidableEq

/-- Per-disease data: language code → block, in insertion order. -/
abbrev DiseaseData := List (String × LangBlock)

/-- The knowledge base: disease key → per-language data, in insertion order. -/
abbrev Faq := List (String × DiseaseData)

/-- Model of `lang_block.get(field)` for the four category fields. -/
def LangBlock.get (b : LangBlock) (f : String) : Option Content :=
  if f == "what" then b.what
  else if f == "symptoms" then b.symptoms
  else if f == "prevention" then b.prevention
  else if f == "remedies" then b.remedies
  else none

/-- Python truthiness of a language block (an empty dict is falsy). -/
def blockTruthy (b : LangBlock) : Bool :=
  b.what.isSome || b.symptoms.isSome || b.prevention.isSome || b.remedies.isSome

/-- Keep a looked-up block only when it is truthy. -/
def truthyOpt : Option LangBlock → Option LangBlock
  | some b => if blockTruthy b then some b else none
  | none => none

/-- Model of `disease_data.get(lang) or disease_data.get("en")` followed by
the `if not lang_block: return None` falsiness check in `search_faq`. -/
def resolveBlock (dd : DiseaseData) (lang : String) : Option LangBlock :=
  match truthyOpt (dd.lookup lang) with
  | some b => some b
  | none => truthyOpt (dd.lookup "en")

/-! ### Tokenizer and disease index (`_tokenize`, `build_disease_index`) -/

/-- `STOP_WORDS` from server.py. -/
def STOP_WORDS : List String :=
  ["a", "an", "the", "is", "are", "am", "i", "you", "he", "she", "it", "we", "they",
   "of", "for", "to", "in", "on", "and", "or", "but", "with", "at", "from",
   "this", "that", "these", "those", "about", "what", "how", "when", "why",
   "do", "does", "did", "my", "your", "his", "her", "their", "our", "have",
   "has", "had", "me", "be", "been", "was", "were"]

/-- Model of regex `\w` on the alphabet our inputs use. -/
def isWordChar (c : Char) : Bool := c.isAlphanum || c == '_'

/-- Split into maximal runs of word characters; `cur` is the current run,
reversed. -/
def tokAux : List Char → List Char → List (List Char)
  | cur, [] => if cur.isEmpty then [] else [cur.reverse]
  | cur, c :: rest =>
    if isWordChar c then tokAux (c :: cur) rest
    else if cur.isEmpty then tokAux [] rest
    else cur.reverse :: tokAux [] rest

/-- Model of `_tokenize`: `re.findall(r"\w+", text.lower())` with stopwords
removed. -/
def tokenize (text : String) : List String :=
  ((tokAux [] (lowerS text).data).map (fun l => (⟨l⟩ : String))).filter
    (fun t => !STOP_WORDS.contains t)

/-- A token set, as produced by Python `set(...)` (deduplicated list; only
membership and cardinality are ever used). -/
abbrev TokenSet := List String

/-- Model of `set(_tokenize(text))`. -/
def tokSet (text : String) : TokenSet := (tokenize text).dedup

/-- `DISEASE_DOCS` as an insertion-ordered association list. -/
abbrev Index := List (String × TokenSet)

/-- Model of `len(tokens & doc_tokens)` for a deduplicated `tks`. -/
def overlapCount (tks doc : TokenSet) : Nat :=
  (tks.filter (fun t => doc.contains t)).length

/-- Content strings contributed by one optional category field. -/
def contentParts : Option Content → List String
  | none => []
  | some (.str s) => [s]
  | some (.items l) => l

/-- All content strings of a block, in the field order of
`build_disease_index`. -/
def blockParts (b : LangBlock) : List String :=
  contentParts b.what ++ contentParts b.symptoms ++
    contentParts b.prevention ++ contentParts b.remedies

/-- Model of `build_disease_index` from server.py. -/
def build_disease_index (faq : Faq) : Index :=
  faq.filterMap fun p =>
    match p.2.lookup "en" with
    | none => none
    | some b =>
      if blockTruthy b then
        let parts := blockParts b
        if parts.isEmpty then none
        else
          let tks := tokSet (joinWith " " parts)
          if tks.isEmpty then none else some (p.1, tks)
      else none

/-! ### NLP guess (`nlp_guess_disease`) -/

/-- The scan loop of `nlp_guess_disease`: replace the tracked best only on a
strictly greater overlap. -/
def nlpLoop (tks : TokenSet) : Index → Option String → Nat → Option String × Nat
  | [], bk, bo => (bk, bo)
  | p :: rest, bk, bo =>
    let o := overlapCount tks p.2
    if bo < o then nlpLoop tks rest (some p.1) o else nlpLoop tks rest bk bo

/-- Model of `nlp_guess_disease` from server.py. -/
def nlp_guess_disease (docs : Index) (text : String) : Option String :=
  if docs.isEmpty then none
  else
    let tks := tokSet text
    if tks.isEmpty then none
    else
      let r := nlpLoop tks docs none 0
      if r.2 < 3 then none else r.1

/-- Greatest overlap of `tks` against any disease in the index. -/
def maxOv (tks : TokenSet) : Index → Nat
  | [] => 0
  | p :: rest => max (overlapCount tks p.2) (maxOv tks rest)

/-! ### FAQ search (`search_faq`) -/

/-- `SUPPORTED_LANGS` from server.py. -/
def SUPPORTED_LANGS : List String := ["en", "hi"]

/-- The language actually used by `search_faq`:
`lang if lang in SUPPORTED_LANGS else "en"`. -/
def faqLang (lang : String) : String :=
  if SUPPORTED_LANGS.contains lang then lang else "en"

/-- The canonical query text of `search_faq`: `text.lower().strip()`. -/
def canon (text : String) : String := stripS (lowerS text)

/-- The key variants tried by the substring stage:
`{d_low, d_low.replace("_"," "), d_low.replace("-"," ")}`. -/
def keyVariants (d : String) : List String :=
  let dl := lowerS d
  [dl, replaceCh dl '_' ' ', replaceCh dl '-' ' ']

/-- Stage 1 of disease resolution: first key (in insertion order) one of
whose variants occurs as a substring of the query. -/
def firstKeyMatch (faq : Faq) (q : String) : Option String :=
  (faq.find? (fun p => (keyVariants p.1).any (fun v => hasSub q v))).map (·.1)

/-- English and Hindi category keyword lists from `search_faq`. -/
def EN_SYM : List String := ["symptom", "symptoms", "signs"]

def EN_PREV : List String := ["prevent", "prevention", "avoid", "protection"]

def EN_REM : List String := ["remedy", "remedies", "treat", "treatment", "cure"]

def HI_SYM : List String := ["लक्षण"]

def HI_PREV : List String := ["बचाव", "रोकथाम"]

def HI_REM : List String := ["उपचार", "इलाज"]

/-- The category-detection block of `search_faq`: an English if/elif chain
followed by an independent Hindi if/elif chain that overwrites its result. -/
def detectCategory (q : String) : String :=
  let c1 :=
    if EN_SYM.any (fun w => hasSub q w) then "symptoms"
    else if EN_PREV.any (fun w => hasSub q w) then "prevention"
    else if EN_REM.any (fun w => hasSub q w) then "remedies"
    else "what"
  if HI_SYM.any (fun w => hasSub q w) then "symptoms"
  else if HI_PREV.any (fun w => hasSub q w) then "prevention"
  else if HI_REM.any (fun w => hasSub q w) then "remedies"
  else c1

/-- The `title_map` lookup with Python `dict.get(category, category.capitalize())`. -/
def titleHeading (lang cat : String) : String :=
  if lang == "hi" then
    if cat == "what" then "क्या है"
    else if cat == "symptoms" then "לक्षण"
    else if cat == "prevention" then "बचाव"
    else if cat == "remedies" then "उपचार / घरेलू उपाय"
    else capitalizeS cat
  else
    if cat == "what" then "About"
    else if cat == "symptoms" then "Symptoms"
    else if cat == "prevention" then "Prevention"
    else if cat == "remedies" then "Remedies"
    else capitalizeS cat

/-- `disease_key.replace("_", " ").replace("-", " ").title()`. -/
def diseaseTitle (k : String) : String :=
  titleS (replaceCh (replaceCh k '_' ' ') '-' ' ')

/-- The answer-formatting tail of `search_faq` (step 3). -/
def renderAnswer (k lang cat : String) (data : Content) : String :=
  let heading := titleHeading lang cat
  let dt := diseaseTitle k
  match data with
  | .items l => "*" ++ dt ++ " – " ++ heading ++ "*\n" ++
      joinWith "\n" (l.map (fun i => "• " ++ i))
  | .str s => "*" ++ dt ++ " – " ++ heading ++ "*\n" ++ s

/-- The shared pipeline of `search_faq` after a disease key is resolved:
language-block resolution, category detection, the `what` fallback and
formatting.  Used identically for explicit and NLP-inferred matches. -/
def answerFor (faq : Faq) (d : String) (q lang : String) : Option String :=
  match resolveBlock ((faq.lookup d).getD []) lang with
  | none => none
  | some b =>
    match b.get (detectCategory q) with
    | some v => some (renderAnswer d lang (detectCategory q) v)
    | none =>
      match b.get "what" with
      | none => none
      | some v => some (renderAnswer d lang "what" v)

/-- Model of `search_faq` from server.py. -/
def search_faq (faq : Faq) (text lang : String) : Option String :=
  if faq.isEmpty || text == "" then none
  else
    match firstKeyMatch faq (canon text) with
    | some d => answerFor faq d (canon text) (faqLang lang)
    | none =>
      match nlp_guess_disease (build_disease_index faq) text with
      | some d => answerFor faq d (canon text) (faqLang lang)
      | none => none

/-! ### Router data (greetings, thanks, vaccination, preventive, legacy) -/

/-- `GREET_KEYWORDS.get(lang, [])`. -/
def GREET_KEYWORDS (lang : String) : List String :=
  if lang == "en" then ["hi", "hello", "hey", "hai"]
  else if lang == "hi" then ["namaste", "namaskar", "namasthe", "नमस्ते", "नमस्कार"]
  else []

/-- `GREET_MESSAGE.get(lang, GREET_MESSAGE["en"])`. -/
def GREET_MESSAGE (lang : String) : String :=
  if lang == "hi" then
    "👋 नमस्ते! मैं *MedXpert* हूँ, आपका ऑफ़लाइन स्वास्थ्य सहायक।\n\n" ++
    "आप ऐसे सवाल पूछ सकते हैं:\n" ++
    "• डेंगू के लक्षण\n" ++
    "• मलेरिया से बचाव कैसे करें\n" ++
    "• शिशु / बच्चा / वयस्क / गर्भवती के टीकाकरण की सूची\n\n" ++
    "किसी भाषा को चुनने के लिए आप ऐसे लिख सकते हैं:\n" ++
    "`lang:hi डेंगू के लक्षण`\n\n" ++
    "आपात स्थिति में तुरंत डॉक्टर या नज़दीकी अस्पताल से संपर्क करें।"
  else
    "👋 Hello! I\u0027m *Ziva*, your whatsapp health assistant.\n\n"

/-- `FALLBACK_MESSAGE.get(lang, FALLBACK_MESSAGE["en"])`. -/
def FALLBACK_MESSAGE (lang : String) : String :=
  if lang == "hi" then
    "मुझे इस प्रश्न का ऑफ़लाइन उत्तर नहीं मिला।\n\n" ++
    "आप इन विषयों पर पूछ सकते हैं:\n" ++
    "• डेंगू / मलेरिया / टीबी के लक्षण\n" ++
    "• मलेरिया / टाइफ़ॉइड से बचाव कैसे करें\n" ++
    "• शिशु / बच्चा / वयस्क / गर्भवती के टीकाकरण की सूची\n\n" ++
    "छाती में दर्द, तेज़ रक्तस्राव या सांस लेने में दिक्कत जैसी आपात स्थिति में " ++
    "कृपया तुरंत डॉक्टर या अस्पताल से संपर्क करें।"
  else
    "I couldn\u0027t find an  answer for that.\n\nSearching the web.....\n"

/-- `THANK_KEYWORDS.get(lang, [])` from `process_message`. -/
def THANK_KEYWORDS (lang : String) : List String :=
  if lang == "en" then ["thank", "thanks", "thank you", "thx", "ty"]
  else if lang == "hi" then ["dhanyavad", "धन्यवाद", "shukriya", "शुक्रिया"]
  else []

/-- `thank_reply.get(lang, thank_reply["en"])`. -/
def THANK_REPLY (lang : String) : String :=
  if lang == "hi" then
    "😊 आपका स्वागत है! यदि आपको और स्वास्थ्य जानकारी चाहिए, तो बताएं।"
  else
    "😊 You\u0027re welcome! Let me know if you need more health information."

/-- The vaccination keyword list of router stage 2. -/
def VACC_KEYWORDS : List String :=
  ["vaccine", "vaccination", "vaccine schedule", "immunization", "टीका", "टीकाकरण"]

/-- `VACCINATION_SCHEDULES` from vaccinations.py. -/
def VACCINATION_SCHEDULES : List (String × List String) :=
  [("infant", ["BCG", "OPV", "Hepatitis B"]),
   ("child", ["DTaP", "MMR", "Varicella"]),
   ("adult", ["Tetanus booster", "Influenza"]),
   ("pregnant", ["TT vaccine"])]

/-- `MODULES` from preventive_health.py. -/
def MODULES : List (String × String) :=
  [("hygiene", "Wash hands with soap, keep nails short, avoid open defecation."),
   ("nutrition", "Eat vegetables, fruits, dal, eggs. Limit packaged foods."),
   ("sanitation", "Use toilets, keep surroundings clean, cover water containers."),
   ("mental health", "Sleep 7-8 hours, talk to family, avoid isolation.")]

/-- `DISEASES` from diseases_multilang.py. -/
def DISEASES_ML : List (String × List (String × String)) :=
  [("covid",
    [("en", "COVID-19 is a viral illness affecting the respiratory system."),
     ("hi", "COVID-19 एक श्वसन तंत्र को प्रभावित करने वाली बीमारी है।"),
     ("ta", "COVID-19 என்பது மூச்சுத்திணறல் அமைப்பை பாதிக்கும் நோய்."),
     ("te", "COVID-19 శ్వాసకోశాన్ని ప్రభావితం చేసే వైరల్ వ్యాధి."),
     ("kn", "COVID-19 ಉಸಿರಾಟವನ್ನು ಪ್ರಭಾವಿಸುವ ರೋಗ."),
     ("ml", "COVID-19 ശ്വാസകോശത്തെ ബാധിക്കുന്ന വൈറസ് രോഗമാണ്.")])]

/-- Model of `diseases_multilang.find_disease` (first matching key wins;
`get(lang) or get("en")` with Python string falsiness). -/
def find_disease (text lang : String) : Option String :=
  match DISEASES_ML.find? (fun p => hasSub (lowerS text) p.1) with
  | none => none
  | some p =>
    match p.2.lookup lang with
    | some s => if s == "" then p.2.lookup "en" else some s
    | none => p.2.lookup "en"

/-! ### Message router (`process_message`) -/

/-- The result record of `process_message` (`extra` is present only when the
code puts the vaccination schedules there). -/
structure PmResult where
  rtype : String
  answer : String
  extra : Option (List (String × List String)) := none
deriving DecidableEq

/-- The language resolution of `process_message`:
`(lang or "en").lower()` coerced into `SUPPORTED_LANGS`. -/
def resolveLang (lang : String) : String :=
  let l := lowerS lang
  if SUPPORTED_LANGS.contains l then l else "en"

/-- Router stages 2-5 (vaccination, preventive, legacy lookup, fallback),
reached when the FAQ stage yields no truthy answer. -/
def post_faq_stages (t lg : String) : PmResult :=
  if VACC_KEYWORDS.any (fun w => hasSub (lowerS t) w) then
    ⟨"vaccination",
     "Here is the offline vaccination schedule (infant, child, adult, pregnant).",
     some VACCINATION_SCHEDULES⟩
  else
    match MODULES.find? (fun p => hasSub (lowerS t) p.1) with
    | some p => ⟨"preventive", p.2, none⟩
    | none =>
      match find_disease t lg with
      | some info =>
        if info == "" then ⟨"fallback", FALLBACK_MESSAGE lg, none⟩
        else ⟨"disease", info, none⟩
      | none => ⟨"fallback", FALLBACK_MESSAGE lg, none⟩

/-- The router body after stripping and language resolution. -/
def pmCore (faq : Faq) (t lg : String) : PmResult :=
  if t == "" then ⟨"fallback", GREET_MESSAGE lg, none⟩
  else if (GREET_KEYWORDS lg).any
      (fun g => lowerS t == g || isPre (g ++ " ") (lowerS t)) then
    ⟨"greeting", GREET_MESSAGE lg, none⟩
  else if (THANK_KEYWORDS lg).any (fun k => hasSub (lowerS t) k) then
    ⟨"thanks", THANK_REPLY lg, none⟩
  else
    match search_faq faq t lg with
    | some ans => if ans == "" then post_faq_stages t lg else ⟨"faq", ans, none⟩
    | none => post_faq_stages t lg

/-- Model of `process_message` from server.py. -/
def process_message (faq : Faq) (text lang : String) : PmResult :=
  pmCore faq (stripS text) (resolveLang lang)

/-! ### Reference classifiers for claim C4 -/

/-- Reference algorithm following the claim and spec wording: consult only
the resolved language's keyword table, symptoms before prevention before
remedies, default `what`. -/
def classifyPerSpec (q lang : String) : String :=
  if lang == "hi" then
    if HI_SYM.any (fun w => hasSub q w) then "symptoms"
    else if HI_PREV.any (fun w => hasSub q w) then "prevention"
    else if HI_REM.any (fun w => hasSub q w) then "remedies"
    else "what"
  else
    if EN_SYM.any (fun w => hasSub q w) then "symptoms"
    else if EN_PREV.any (fun w => hasSub q w) then "prevention"
    else if EN_REM.any (fun w => hasSub q w) then "remedies"
    else "what"

/-- One priority chain (symptoms before prevention before remedies) over a
single language's keyword table. -/
def classifyChain (q : String) (syms prevs rems : List String) : Option String :=
  if syms.any (fun w => hasSub q w) then some "symptoms"
  else if prevs.any (fun w => hasSub q w) then some "prevention"
  else if rems.any (fun w => hasSub q w) then some "remedies"
  else none

/-- The amended reference algorithm: any Hindi-table match takes precedence,
otherwise the English-table chain, otherwise `what` — independent of the
resolved language. -/
def classifyBothTables (q : String) : String :=
  match classifyChain q HI_SYM HI_PREV HI_REM with
  | some c => c
  | none =>
    match classifyChain q EN_SYM EN_PREV EN_REM with
    | some c => c
    | none => "what"

/-! ### Concrete fixture data used by witnesses and counterexamples -/

/-- A one-disease knowledge base (the spec's Scenario 1 knowledge base):
`{"dengue": {"en": {"what": ..., "symptoms": [...], "prevention": [...]}}}`. -/
def kbW1 : Faq :=
  [("dengue",
    [("en",
      ⟨some (.str "Dengue is a viral infection."),
       some (.items ["fever", "rash"]),
       some (.items ["remove standing water"]),
       none⟩)])]

/-- A one-entry index whose doc shares only two tokens with the test query. -/
def docsA : Index := [("dengue", ["fever", "rash"])]

/-- A one-entry index whose doc shares three tokens with the test query. -/
def docsB : Index := [("dengue", ["fever", "rash", "vomit"])]

/-- The tail of a two-entry index in which both diseases have the same
token set, so both tie on any overlap. -/
def docsTieTail : Index := [("beta", ["x0", "y0", "z0"])]

/-! ### Helper lemmas -/

theorem overlapCount_nil (doc : TokenSet) : overlapCount [] doc = 0 := rfl

theorem maxOv_nil_tks : ∀ l : Index, maxOv [] l = 0
  | [] => rfl
  | p :: rest => by simp [maxOv, overlapCount_nil, maxOv_nil_tks rest]

theorem maxOv_cons (tks : TokenSet) (p : String × TokenSet) (rest : Index) :
    maxOv tks (p :: rest) = max (overlapCount tks p.2) (maxOv tks rest) := rfl

theorem maxOv_le {tks : TokenSet} {l : Index} {n : Nat}
    (h : ∀ p ∈ l, overlapCount tks p.2 ≤ n) : maxOv tks l ≤ n := by
  induction l with
  | nil => simp [maxOv]
  | cons p rest ih =>
    rw [maxOv_cons, Nat.max_le]
    exact ⟨h p (List.mem_cons_self p rest), ih fun q hq => h q (List.mem_cons_of_mem p hq)⟩

theorem le_maxOv_of_mem {tks : TokenSet} {l : Index} (p : String × TokenSet)
    (hp : p ∈ l) : overlapCount tks p.2 ≤ maxOv tks l := by
  induction l with
  | nil => cases hp
  | cons q rest ih =>
    rcases List.mem_cons.mp hp with rfl | hmem
    · rw [maxOv_cons]; exact Nat.le_max_left _ _
    · exact Nat.le_trans (ih hmem) (by rw [maxOv_cons]; exact Nat.le_max_right _ _)

theorem exists_maxOv (tks : TokenSet) {l : Index} (h : l ≠ []) :
    ∃ p ∈ l, overlapCount tks p.2 = maxOv tks l := by
  induction l with
  | nil => exact absurd rfl h
  | cons q rest ih =>
    rcases rest with _ | ⟨r, rs⟩
    · exact ⟨q, List.mem_cons_self _ _, by rw [maxOv_cons]; simp [maxOv]⟩
    · obtain ⟨p, hp, hov⟩ := ih (by simp)
      rcases Nat.le_total (maxOv tks (r :: rs)) (overlapCount tks q.2) with hle | hle
      · exact ⟨q, List.mem_cons_self _ _, by rw [maxOv_cons, Nat.max_eq_left hle]⟩
      · refine ⟨p, List.mem_cons_of_mem q hp, ?_⟩
        rw [maxOv_cons, Nat.max_eq_right hle]
        exact hov

/-- Full characterization of the scan loop of `nlp_guess_disease`: it
improves on the incoming best only when some remaining overlap strictly
exceeds it, and then settles on the first disease attaining the maximum. -/
theorem nlpLoop_spec (tks : TokenSet) (l : Index) :
    ∀ (bk : Option String) (bo : Nat),
      nlpLoop tks l bk bo =
        if bo < maxOv tks l then
          ((l.find? (fun p => overlapCount tks p.2 == maxOv tks l)).map (·.1),
            maxOv tks l)
        else (bk, bo) := by
  induction l with
  | nil =>
    intro bk bo
    simp [nlpLoop, maxOv]
  | cons p rest ih =>
    intro bk bo
    simp only [nlpLoop, maxOv_cons]
    by_cases h1 : bo < overlapCount tks p.2
    · rw [if_pos h1, ih]
      rcases Nat.lt_or_ge (overlapCount tks p.2) (maxOv tks rest) with h2 | h2
      · have hmax : max (overlapCount tks p.2) (maxOv tks rest) = maxOv tks rest :=
          Nat.max_eq_right (Nat.le_of_lt h2)
        rw [if_pos h2, hmax, if_pos (Nat.lt_trans h1 h2),
          List.find?_cons_of_neg _ (by simp only [beq_iff_eq]; exact Nat.ne_of_lt h2)]
      · have hmax : max (overlapCount tks p.2) (maxOv tks rest) = overlapCount tks p.2 :=
          Nat.max_eq_left h2
        have hfind :
            List.find?
              (fun x => overlapCount tks x.2 == overlapCount tks p.2) (p :: rest) =
              some p :=
          List.find?_cons_of_pos _ (by simp)
        rw [if_neg (Nat.not_lt.mpr h2), hmax, if_pos h1, hfind]
        rfl
    · rw [if_neg h1, ih]
      have h1' : overlapCount tks p.2 ≤ bo := Nat.not_lt.mp h1
      rcases Nat.lt_or_ge bo (maxOv tks rest) with h2 | h2
      · have hqm : overlapCount tks p.2 < maxOv tks rest := Nat.lt_of_le_of_lt h1' h2
        have hmax : max (overlapCount tks p.2) (maxOv tks rest) = maxOv tks rest :=
          Nat.max_eq_right (Nat.le_of_lt hqm)
        rw [hmax, if_pos h2,
          List.find?_cons_of_neg _ (by simp only [beq_iff_eq]; exact Nat.ne_of_lt hqm),
          if_pos h2]
      · have hno : ¬ (bo < max (overlapCount tks p.2) (maxOv tks rest)) := by
          rw [Nat.not_lt, Nat.max_le]
          exact ⟨h1', h2⟩
        rw [if_neg (Nat.not_lt.mpr h2), if_neg hno]

/-- `nlp_guess_disease` in closed form: when the best overlap reaches the
threshold it returns the first disease attaining the maximum; otherwise
nothing. -/
theorem nlp_guess_eq (docs : Index) (text : String) :
    nlp_guess_disease docs text =
      if 3 ≤ maxOv (tokSet text) docs then
        (docs.find?
          (fun p => overlapCount (tokSet text) p.2 == maxOv (tokSet text) docs)).map (·.1)
      else none := by
  unfold nlp_guess_disease
  by_cases hd : docs.isEmpty
  · have : docs = [] := List.isEmpty_iff.mp hd
    subst this
    simp [maxOv]
  · rw [if_neg hd]
    by_cases ht : (tokSet text).isEmpty
    · have htl : tokSet text = [] := List.isEmpty_iff.mp ht
      rw [if_pos ht, htl, maxOv_nil_tks]
      simp
    · rw [if_neg ht, nlpLoop_spec]
      rcases Nat.lt_or_ge 0 (maxOv (tokSet text) docs) with h0 | h0
      · rw [if_pos h0]
        rcases Nat.lt_or_ge (maxOv (tokSet text) docs) 3 with h3 | h3
        · simp only [if_pos h3, if_neg (Nat.not_le.mpr h3)]
        · simp only [if_neg (Nat.not_lt.mpr h3), if_pos h3]
      · have hz : maxOv (tokSet text) docs = 0 := Nat.le_zero.mp h0
        rw [if_neg (Nat.not_lt.mpr h0), hz]
        simp

theorem greet_ne_empty {lang g : String} (h : g ∈ GREET_KEYWORDS lang) : g ≠ "" := by
  intro hg
  subst hg
  unfold GREET_KEYWORDS at h
  split at h
  · exact absurd h (by decide)
  · split at h
    · exact absurd h (by decide)
    · exact List.not_mem_nil _ h

theorem isPre_space_empty (g : String) : isPre (g ++ " ") "" = false := by
  unfold isPre
  rw [String.data_append]
  cases g.data with
  | nil => decide
  | cons a as => rfl

theorem dropWhile_eq_nil_of_all {p : Char → Bool} {l : List Char}
    (h : ∀ c ∈ l, p c) : l.dropWhile p = [] := by
  induction l with
  | nil => rfl
  | cons c rest ih =>
    rw [List.dropWhile_cons_of_pos (h c (List.mem_cons_self _ _))]
    exact ih fun x hx => h x (List.mem_cons_of_mem _ hx)

theorem stripS_eq_empty {s : String} (h : ∀ c ∈ s.data, c.isWhitespace) :
    stripS s = "" := by
  unfold stripS
  rw [dropWhile_eq_nil_of_all h]
  rfl

theorem post_faq_extra (t lg : String) :
    (post_faq_stages t lg).extra =
      if (post_faq_stages t lg).rtype = "vaccination" then some VACCINATION_SCHEDULES
      else none := by
  unfold post_faq_stages
  split
  · rw [if_pos rfl]
  · split
    · rw [if_neg (show ("preventive" : String) ≠ "vaccination" by decide)]
    · split
      · split
        · rw [if_neg (show ("fallback" : String) ≠ "vaccination" by decide)]
        · rw [if_neg (show ("disease" : String) ≠ "vaccination" by decide)]
      · rw [if_neg (show ("fallback" : String) ≠ "vaccination" by decide)]

theorem post_faq_rtype_ne_faq (t lg : String) :
    (post_faq_stages t lg).rtype ≠ "faq" := by
  unfold post_faq_stages
  split
  · exact (by decide : ("vaccination" : String) ≠ "faq")
  · split
    · exact (by decide : ("preventive" : String) ≠ "faq")
    · split
      · split
        · exact (by decide : ("fallback" : String) ≠ "faq")
        · exact (by decide : ("disease" : String) ≠ "faq")
      · exact (by decide : ("fallback" : String) ≠ "faq")

/-! ### Claims -/

/-- Claim C3: if every disease's token overlap with the input is at most 2,
`nlp_guess_disease` returns `none`; if the best overlap is at least 3 it
returns the disease attaining that best overlap. -/
theorem claim_C3 (docs : Index) (text : String) :
    ((∀ p ∈ docs, overlapCount (tokSet text) p.2 ≤ 2) →
      nlp_guess_disease docs text = none) ∧
    (3 ≤ maxOv (tokSet text) docs →
      ∃ p ∈ docs, nlp_guess_disease docs text = some p.1 ∧
        overlapCount (tokSet text) p.2 = maxOv (tokSet text) docs) := by
  constructor
  · intro h
    rw [nlp_guess_eq]
    have hle : maxOv (tokSet text) docs ≤ 2 := maxOv_le h
    rw [if_neg (by omega)]
  · intro h3
    rw [nlp_guess_eq, if_pos h3]
    have hne : docs ≠ [] := by
      intro hd
      subst hd
      simp [maxOv] at h3
    obtain ⟨p, hp, hov⟩ := exists_maxOv (tokSet text) hne
    have hfind : (docs.find?
        (fun p => overlapCount (tokSet text) p.2 == maxOv (tokSet text) docs)).isSome := by
      rw [List.find?_isSome]
      exact ⟨p, hp, by simp [hov]⟩
    obtain ⟨q, hq⟩ := Option.isSome_iff_exists.mp hfind
    refine ⟨q, List.mem_of_find?_eq_some hq, by rw [hq]; rfl, ?_⟩
    have := List.find?_some hq
    simpa using this

/-- Witness for C3: overlap 2 yields no guess; overlap 3 yields the
best-overlap disease. -/
theorem claim_C3_witness :
    nlp_guess_disease docsA "fever rash headache" = none ∧
    nlp_guess_disease docsB "fever rash vomit" = some "dengue" := by
  constructor
  · exact (claim_C3 docsA "fever rash headache").1 (by decide)
  · obtain ⟨p, hp, he, -⟩ := (claim_C3 docsB "fever rash vomit").2 (by decide)
    rw [he]
    have hpd : p = ("dengue", ["fever", "rash", "vomit"]) := by
      simpa [docsB] using hp
    rw [hpd]

/-- Claim C6: on ties in the maximum overlap, `nlp_guess_disease` returns
the first-seen disease in index order — a tracked best is only replaced by
a strictly greater overlap. -/
theorem claim_C6 (text : String) (pre post : Index) (k : String) (ts : TokenSet)
    (hpre : ∀ p ∈ pre, overlapCount (tokSet text) p.2 < overlapCount (tokSet text) ts)
    (hpost : ∀ p ∈ post, overlapCount (tokSet text) p.2 ≤ overlapCount (tokSet text) ts)
    (h3 : 3 ≤ overlapCount (tokSet text) ts) :
    nlp_guess_disease (pre ++ (k, ts) :: post) text = some k := by
  have hM : maxOv (tokSet text) (pre ++ (k, ts) :: post) =
      overlapCount (tokSet text) ts := by
    apply Nat.le_antisymm
    · apply maxOv_le
      intro p hp
      rcases List.mem_append.mp hp with h | h
      · exact Nat.le_of_lt (hpre p h)
      · rcases List.mem_cons.mp h with rfl | h
        · exact Nat.le_refl _
        · exact hpost p h
    · exact le_maxOv_of_mem (k, ts)
        (List.mem_append_right pre (List.mem_cons_self (k, ts) post))
  rw [nlp_guess_eq, hM, if_pos h3]
  have hnone : List.find?
      (fun p => overlapCount (tokSet text) p.2 == overlapCount (tokSet text) ts) pre =
      none := by
    rw [List.find?_eq_none]
    intro p hp
    simp only [beq_iff_eq]
    exact Nat.ne_of_lt (hpre p hp)
  rw [List.find?_append, hnone, List.find?_cons_of_pos _ (by simp)]
  rfl

/-- Witness for C6: two diseases with identical token sets tie at overlap 3
and the first one wins. -/
theorem claim_C6_witness :
    nlp_guess_disease (("alpha", ["x0", "y0", "z0"]) :: docsTieTail) "x0 y0 z0" =
      some "alpha" :=
  claim_C6 "x0 y0 z0" [] docsTieTail "alpha" ["x0", "y0", "z0"]
    (by decide) (by decide) (by decide)

/-- Claim C1 (amended): when no disease-key variant occurs as a substring of
the query but the NLP guess resolves a disease, `search_faq` produces the
same detailed category answer as an explicit match — the shared
`answerFor` pipeline (block resolution, category classification, `what`
fallback, detailed formatting) — not a caution template; the code draws no
explicit-versus-inferred distinction. -/
theorem claim_C1 (faq : Faq) (text lang : String) (d : String)
    (hfaq : faq ≠ []) (htext : text ≠ "")
    (hkey : firstKeyMatch faq (canon text) = none)
    (hnlp : nlp_guess_disease (build_disease_index faq) text = some d) :
    search_faq faq text lang = answerFor faq d (canon text) (faqLang lang) := by
  have hc : (faq.isEmpty || (text == "")) = false := by
    have h1 : faq.isEmpty = false := by
      cases faq with
      | nil => exact absurd rfl hfaq
      | cons a l => rfl
    have h2 : (text == "") = false := beq_eq_false_iff_ne.mpr htext
    rw [h1, h2]
    rfl
  unfold search_faq
  rw [hc, if_neg Bool.false_ne_true, hkey, hnlp]

/-- Witness for C1 (amended): a concrete symptom-only query resolved by the
NLP guess flows through the shared detailed-answer pipeline. -/
theorem claim_C1_witness :
    search_faq kbW1 "fever rash standing water" "en" =
      answerFor kbW1 "dengue" (canon "fever rash standing water") (faqLang "en") :=
  claim_C1 kbW1 "fever rash standing water" "en" "dengue"
    (by decide) (by decide) (by decide) (by decide)

/-- Counterexample to C1 as stated: for this knowledge base and this input
no disease-key substring occurs and the token overlap is at least 3, yet
the produced answer is exactly the detailed `what` category content of the
inferred disease — it contains the knowledge-base content verbatim and
contains no doctor recommendation, so it is not the claimed caution-only
template. -/
theorem claim_C1_cex :
    search_faq kbW1 "fever rash standing water" "en" =
      some "*Dengue – About*\nDengue is a viral infection." ∧
    hasSub "*Dengue – About*\nDengue is a viral infection."
      "Dengue is a viral infection." = true ∧
    hasSub (lowerS "*Dengue – About*\nDengue is a viral infection.") "doctor" = false ∧
    firstKeyMatch kbW1 (canon "fever rash standing water") = none ∧
    3 ≤ maxOv (tokSet "fever rash standing water") (build_disease_index kbW1) := by
  decide

/-- Claim C4 (amended): the category classifier is independent of the
resolved language; it always consults both keyword tables, and any
Hindi-table match (symptoms before prevention before remedies) overrides
the English-table chain, which otherwise decides, defaulting to `what`. -/
theorem claim_C4 (q : String) : detectCategory q = classifyBothTables q := by
  unfold detectCategory classifyBothTables classifyChain
  cases h1 : HI_SYM.any (fun w => hasSub q w) <;>
  cases h2 : HI_PREV.any (fun w => hasSub q w) <;>
  cases h3 : HI_REM.any (fun w => hasSub q w) <;>
  cases h4 : EN_SYM.any (fun w => hasSub q w) <;>
  cases h5 : EN_PREV.any (fun w => hasSub q w) <;>
  cases h6 : EN_REM.any (fun w => hasSub q w) <;>
  simp [h1, h2, h3, h4, h5, h6]

/-- Counterexample to C4 as stated: with resolved language `hi` and input
`"dengue symptom"`, the code's classifier picks `symptoms` (from the
English keyword table), while the claim's reference algorithm — consulting
only the resolved language's table — yields `what`. -/
theorem claim_C4_cex :
    detectCategory (canon "dengue symptom") ≠
      classifyPerSpec (canon "dengue symptom") "hi" := by
  decide

/-- Claim C5: on an explicit key match whose resolved language block lacks
the classified category's content, `search_faq` falls back to the `what`
content with the category (and heading) forced to `what`; if `what` is
also absent it returns no answer. -/
theorem claim_C5 (faq : Faq) (text lang : String) (d : String) (b : LangBlock)
    (hfaq : faq ≠ []) (htext : text ≠ "")
    (hkey : firstKeyMatch faq (canon text) = some d)
    (hblock : resolveBlock ((faq.lookup d).getD []) (faqLang lang) = some b)
    (hcat : b.get (detectCategory (canon text)) = none) :
    search_faq faq text lang = (b.what).map (renderAnswer d (faqLang lang) "what") := by
  have hc : (faq.isEmpty || (text == "")) = false := by
    have h1 : faq.isEmpty = false := by
      cases faq with
      | nil => exact absurd rfl hfaq
      | cons a l => rfl
    have h2 : (text == "") = false := beq_eq_false_iff_ne.mpr htext
    rw [h1, h2]
    rfl
  have hstep : search_faq faq text lang = answerFor faq d (canon text) (faqLang lang) := by
    unfold search_faq
    rw [hc, if_neg Bool.false_ne_true, hkey]
  rw [hstep]
  unfold answerFor
  simp only [hblock, hcat]
  have hw : b.get "what" = b.what := rfl
  rw [hw]
  cases b.what with
  | none => rfl
  | some v => rfl

/-- Witness for C5: `kbW1` has no `remedies` entry, and a remedy query
falls back to the `what` content with heading `About`. -/
theorem claim_C5_witness :
    search_faq kbW1 "dengue treatment" "en" =
      some "*Dengue – About*\nDengue is a viral infection." := by
  have h := claim_C5 kbW1 "dengue treatment" "en" "dengue"
    ⟨some (.str "Dengue is a viral infection."),
     some (.items ["fever", "rash"]),
     some (.items ["remove standing water"]),
     none⟩
    (by decide) (by decide) (by decide) (by decide) (by decide)
  rw [h]
  rfl

/-- Claim C2: an input that begins with a greeting keyword of the resolved
language (as a whole first word, case-insensitively) is answered by the
Greeting stage even when it also names a disease of the knowledge base:
the greeting stage short-circuits every later stage. -/
theorem claim_C2 (faq : Faq) (text lang : String)
    (hgreet : ∃ g ∈ GREET_KEYWORDS (resolveLang lang),
      lowerS (stripS text) = g ∨ isPre (g ++ " ") (lowerS (stripS text)) = true)
    (hdisease : ∃ p ∈ faq, ∃ v ∈ keyVariants p.1, hasSub (canon text) v = true) :
    process_message faq text lang =
      ⟨"greeting", GREET_MESSAGE (resolveLang lang), none⟩ := by
  obtain ⟨g, hg, hcase⟩ := hgreet
  unfold process_message pmCore
  have hne : ¬ ((stripS text == "") = true) := by
    intro hEq
    have ht : stripS text = "" := by simpa using hEq
    rcases hcase with h | h
    · apply greet_ne_empty hg
      rw [← h, ht]
      decide
    · rw [ht] at h
      have hl : lowerS "" = "" := by decide
      rw [hl, isPre_space_empty] at h
      exact Bool.false_ne_true h
  rw [if_neg hne]
  have hany : ((GREET_KEYWORDS (resolveLang lang)).any
      (fun g => lowerS (stripS text) == g ||
        isPre (g ++ " ") (lowerS (stripS text)))) = true := by
    rw [List.any_eq_true]
    refine ⟨g, hg, ?_⟩
    rw [Bool.or_eq_true]
    rcases hcase with h | h
    · exact Or.inl (beq_iff_eq.mpr h)
    · exact Or.inr h
  rw [if_pos hany]

/-- Witness for C2: `"hi dengue"` both begins with the greeting keyword
`hi` and names the disease `dengue`, and the Greeting stage wins. -/
theorem claim_C2_witness :
    process_message kbW1 "hi dengue" "en" =
      ⟨"greeting", GREET_MESSAGE (resolveLang "en"), none⟩ :=
  claim_C2 kbW1 "hi dengue" "en" (by decide) (by decide)

/-- Claim C7: empty or whitespace-only input produces the Fallback intent
carrying the greeting/help message of the resolved language. -/
theorem claim_C7 (faq : Faq) (text lang : String)
    (hws : ∀ c ∈ text.data, c.isWhitespace) :
    process_message faq text lang =
      ⟨"fallback", GREET_MESSAGE (resolveLang lang), none⟩ := by
  have hstrip : stripS text = "" := stripS_eq_empty hws
  unfold process_message pmCore
  rw [hstrip, if_pos (show (("" : String) == "") = true by decide)]

/-- Witness for C7: a three-space input yields the Fallback intent with the
greeting message. -/
theorem claim_C7_witness :
    process_message kbW1 "   " "en" =
      ⟨"fallback", GREET_MESSAGE (resolveLang "en"), none⟩ :=
  claim_C7 kbW1 "   " "en" (by decide)

/-- Claim C8: the result of `process_message` carries an extra payload
exactly when the intent is `vaccination`, and then it is the full
vaccination-schedule mapping. -/
theorem claim_C8 (faq : Faq) (text lang : String) :
    (process_message faq text lang).extra =
      if (process_message faq text lang).rtype = "vaccination" then
        some VACCINATION_SCHEDULES
      else none := by
  unfold process_message pmCore
  split
  · rw [if_neg (show ("fallback" : String) ≠ "vaccination" by decide)]
  · split
    · rw [if_neg (show ("greeting" : String) ≠ "vaccination" by decide)]
    · split
      · rw [if_neg (show ("thanks" : String) ≠ "vaccination" by decide)]
      · split
        · split
          · exact post_faq_extra _ _
          · rw [if_neg (show ("faq" : String) ≠ "vaccination" by decide)]
        · exact post_faq_extra _ _

/-- Claim C9: with an empty knowledge base `search_faq` answers nothing for
any input and language, and the router still produces a result whose
intent is never `faq`. -/
theorem claim_C9 (text lang : String) :
    search_faq [] text lang = none ∧
    (process_message [] text lang).rtype ≠ "faq" := by
  have hs : ∀ t lg : String, search_faq ([] : Faq) t lg = none := by
    intro t lg
    unfold search_faq
    rfl
  refine ⟨hs text lang, ?_⟩
  unfold process_message pmCore
  split
  · exact (by decide : ("fallback" : String) ≠ "faq")
  · split
    · exact (by decide : ("greeting" : String) ≠ "faq")
    · split
      · exact (by decide : ("thanks" : String) ≠ "faq")
      · rw [hs (stripS text) (resolveLang lang)]
        exact post_faq_rtype_ne_faq _ _

/-- Claim C10: because the thanks stage matches keywords as bare substrings
and the English list contains `"ty"`, any English input containing `"ty"`
that is not caught by the greeting stage is answered by the Thanks stage,
so the FAQ stage is never reached. -/
theorem claim_C10 (faq : Faq) (text lang : String)
    (hlang : resolveLang lang = "en")
    (hty : hasSub (lowerS (stripS text)) "ty" = true)
    (hgreet : ((GREET_KEYWORDS "en").any
      (fun g => lowerS (stripS text) == g ||
        isPre (g ++ " ") (lowerS (stripS text)))) = false) :
    process_message faq text lang = ⟨"thanks", THANK_REPLY "en", none⟩ := by
  unfold process_message pmCore
  rw [hlang]
  have hne : ¬ ((stripS text == "") = true) := by
    intro hEq
    have ht : stripS text = "" := by simpa using hEq
    rw [ht] at hty
    exact absurd hty (by decide)
  rw [if_neg hne]
  have hg' : ¬ (((GREET_KEYWORDS "en").any
      (fun g => lowerS (stripS text) == g ||
        isPre (g ++ " ") (lowerS (stripS text)))) = true) := by
    rw [hgreet]
    exact Bool.false_ne_true
  rw [if_neg hg']
  have hth : ((THANK_KEYWORDS "en").any
      (fun k => hasSub (lowerS (stripS text)) k)) = true := by
    rw [List.any_eq_true]
    exact ⟨"ty", by decide, hty⟩
  rw [if_pos hth]

/-- Witness for C10: `"typhoid symptoms"` names the disease typhoid yet is
answered by the Thanks stage, because `"ty"` occurs as a substring. -/
theorem claim_C10_witness :
    process_message kbW1 "typhoid symptoms" "en" =
      ⟨"thanks", THANK_REPLY "en", none⟩ :=
  claim_C10 kbW1 "typhoid symptoms" "en" (by decide) (by decide) (by decide)

end Medxai
